import Mathlib

/-
Verification of the spacesim engine/tank/clock core (src/js/app.js, modules
core.js and engine.js) against its natural-language specification.

Shallow embedding conventions:
* JS numbers are modelled by ℚ.  All quantities appearing in the claims are
  produced by exact decimal literals and the four arithmetic operations, so ℚ
  is faithful except at division by zero: JS yields NaN (0/0) or ±Infinity
  (x/0), while ℚ yields 0.  Theorems whose content depends on a division only
  assert things at nonzero denominators.
* Stateful methods become state-passing functions; a method that throws is
  modelled with Except, and an error result means the pre-call state is the
  state after the call (the source methods in question throw before any
  mutation).
* RP-1's melting point is NaN in the source; it is modelled as none.
-/

structure Compound where
  density : ℚ
  meltingPoint : Option ℚ
  boilingPoint : ℚ
deriving DecidableEq

/-- Fuels.RP_1 from engine.js: density 0.000820 kg/mL, melting point NaN,
boiling point 274.0 °C. -/
def Fuels.RP_1 : Compound := ⟨82 / 100000, none, 274⟩

/-- Tank state: the stored fields of the Tank class (compound, volume
capacity, mass capacity as computed by the constructor, current level). -/
structure Tank where
  compound : Compound
  volumeCapacity : ℚ
  massCapacity : ℚ
  level : ℚ
deriving DecidableEq

/-- Tank constructor: level starts at 0, massCapacity = capacity * density. -/
def Tank.new (compound : Compound) (capacity : ℚ) : Tank :=
  ⟨compound, capacity, capacity * compound.density, 0⟩

/-- Tank.fillMass: mass = Math.min(massCapacity - level, mass); level += mass;
return mass.  Returns (returned value, updated tank). -/
def Tank.fillMass (t : Tank) (mass : ℚ) : ℚ × Tank :=
  let m := min (t.massCapacity - t.level) mass
  (m, { t with level := t.level + m })

/-- Tank.drainMass: mass = Math.min(level, mass); level -= mass; return mass. -/
def Tank.drainMass (t : Tank) (mass : ℚ) : ℚ × Tank :=
  let m := min t.level mass
  (m, { t with level := t.level - m })

/-- Tank.fillVolume: mass = Math.min(massCapacity - level, volume * density);
level += mass; return mass / density. -/
def Tank.fillVolume (t : Tank) (volume : ℚ) : ℚ × Tank :=
  let m := min (t.massCapacity - t.level) (volume * t.compound.density)
  (m / t.compound.density, { t with level := t.level + m })

/-- Tank.drainVolume: mass = Math.min(level, volume * density); level -= mass;
return mass / density. -/
def Tank.drainVolume (t : Tank) (volume : ℚ) : ℚ × Tank :=
  let m := min t.level (volume * t.compound.density)
  (m / t.compound.density, { t with level := t.level - m })

/-- One call to a fill/drain operation, identified with its requested amount. -/
inductive TankOp where
  | fillVolume (v : ℚ)
  | fillMass (m : ℚ)
  | drainVolume (v : ℚ)
  | drainMass (m : ℚ)
deriving DecidableEq

/-- The requested amount carried by a fill/drain call. -/
def TankOp.amount : TankOp → ℚ
  | .fillVolume v => v
  | .fillMass m => m
  | .drainVolume v => v
  | .drainMass m => m

/-- State change of a tank performed by one fill/drain call. -/
def Tank.apply (t : Tank) : TankOp → Tank
  | .fillVolume v => (t.fillVolume v).2
  | .fillMass m => (t.fillMass m).2
  | .drainVolume v => (t.drainVolume v).2
  | .drainMass m => (t.drainMass m).2

/-- State change of a tank performed by a sequence of fill/drain calls. -/
def Tank.applyAll (t : Tank) : List TankOp → Tank
  | [] => t
  | op :: ops => (t.apply op).applyAll ops

/-- Engine errors raised during tick (NoFuelTankConnectedError,
NoOxidizerTankConnectedError, and the RangeError of the chamber's mixture
validation). -/
inductive EngineError where
  | noFuelTank
  | noOxidizerTank
  | mixtureRange
deriving DecidableEq

/-- The per-instance constant #PREBURNER_TAP_OFF = 0.05. -/
def PREBURNER_TAP_OFF : ℚ := 5 / 100

/-- The per-instance constant #CHAMBER_TAP_OFF = 1 - #PREBURNER_TAP_OFF. -/
def CHAMBER_TAP_OFF : ℚ := 1 - PREBURNER_TAP_OFF

/-- Engine state: the nominal design constants stored by the constructor
(fields #thrust, #fuelFlow, #oxidizerFlow, #propellantFlow,
#effectiveExhaustVelocity, named here with the spec's `Nominal` suffix since
the source getters of the same names are throttled values), the tank ports,
and the mutable control/combustion state. -/
structure Engine where
  thrustNominal : ℚ
  fuelFlowNominal : ℚ
  oxidizerFlowNominal : ℚ
  propellantFlowNominal : ℚ
  exhaustVelocityNominal : ℚ
  fuelTank : Option Tank
  oxidizerTank : Option Tank
  throttle : ℚ
  preburnerIgnition : Bool
  chamberIgnition : Bool
  preburnerCombustion : ℚ
  chamberCombustion : ℚ
deriving DecidableEq

/-- Engine constructor. -/
def Engine.new (thrust fuelFlow oxidizerFlow : ℚ) : Engine :=
  { thrustNominal := thrust
    fuelFlowNominal := fuelFlow
    oxidizerFlowNominal := oxidizerFlow
    propellantFlowNominal := fuelFlow + oxidizerFlow
    exhaustVelocityNominal := thrust / (fuelFlow + oxidizerFlow)
    fuelTank := none
    oxidizerTank := none
    throttle := 0
    preburnerIgnition := false
    chamberIgnition := false
    preburnerCombustion := 0
    chamberCombustion := 0 }

/-- Engine.thrustLevel getter. -/
def Engine.thrustLevel (e : Engine) : ℚ :=
  e.preburnerCombustion * PREBURNER_TAP_OFF + e.chamberCombustion * CHAMBER_TAP_OFF

/-- Engine.thrust getter. -/
def Engine.thrust (e : Engine) : ℚ :=
  e.thrustNominal * e.thrustLevel

/-- Engine.fuelFlow getter. -/
def Engine.fuelFlow (e : Engine) : ℚ :=
  e.fuelFlowNominal * PREBURNER_TAP_OFF * e.preburnerCombustion
    + e.fuelFlowNominal * CHAMBER_TAP_OFF * e.chamberCombustion

/-- Engine.oxidizerFlow getter. -/
def Engine.oxidizerFlow (e : Engine) : ℚ :=
  e.oxidizerFlowNominal * PREBURNER_TAP_OFF * e.preburnerCombustion
    + e.oxidizerFlowNominal * CHAMBER_TAP_OFF * e.chamberCombustion

/-- Engine.propellantFlow getter. -/
def Engine.propellantFlow (e : Engine) : ℚ :=
  e.propellantFlowNominal * PREBURNER_TAP_OFF * e.preburnerCombustion
    + e.propellantFlowNominal * CHAMBER_TAP_OFF * e.chamberCombustion

/-- Engine.effectiveExhaustVelocity getter. -/
def Engine.effectiveExhaustVelocity (e : Engine) : ℚ :=
  e.exhaustVelocityNominal * PREBURNER_TAP_OFF * e.preburnerCombustion
    + e.exhaustVelocityNominal * CHAMBER_TAP_OFF * e.chamberCombustion

/-- Engine.specificImpulse(g). -/
def Engine.specificImpulse (e : Engine) (g : ℚ) : ℚ :=
  e.thrust / e.propellantFlow * g

/-- Engine.#preburner(elapsed): checks the tank ports (fuel first), drains
fuelFlow * (PREBURNER_TAP_OFF * elapsed) * throttle from each tank (with the
respective nominal flow), computes the supply ratios with denominator
fuelFlow * (PREBURNER_TAP_OFF * elapsed), and applies the hysteresis rule to
\#preburnerCombustion. -/
def Engine.preburner (e : Engine) (elapsed : ℚ) : Except EngineError Engine :=
  match e.fuelTank with
  | none => .error .noFuelTank
  | some ft =>
    match e.oxidizerTank with
    | none => .error .noOxidizerTank
    | some ot =>
      let a := PREBURNER_TAP_OFF * elapsed
      let b := a * e.throttle
      let fuelDrained := (ft.drainMass (e.fuelFlowNominal * b)).1
      let ft1 := (ft.drainMass (e.fuelFlowNominal * b)).2
      let oxidizerDrained := (ot.drainMass (e.oxidizerFlowNominal * b)).1
      let ot1 := (ot.drainMass (e.oxidizerFlowNominal * b)).2
      let fuelSupply := fuelDrained / (e.fuelFlowNominal * a)
      let oxidizerSupply := oxidizerDrained / (e.oxidizerFlowNominal * a)
      .ok { e with
        fuelTank := some ft1
        oxidizerTank := some ot1
        preburnerCombustion :=
          if e.preburnerIgnition ∨ 0 < e.preburnerCombustion then
            min fuelSupply oxidizerSupply
          else 0 }

/-- Engine.#pump(elapsed): checks the tank ports, drains
fuelFlow * (CHAMBER_TAP_OFF * elapsed) * preburnerCombustion from each tank,
computes supply ratios with denominator fuelFlow * (CHAMBER_TAP_OFF * elapsed)
and returns min(fuelSupply, oxidizerSupply) together with the updated state. -/
def Engine.pump (e : Engine) (elapsed : ℚ) : Except EngineError (ℚ × Engine) :=
  match e.fuelTank with
  | none => .error .noFuelTank
  | some ft =>
    match e.oxidizerTank with
    | none => .error .noOxidizerTank
    | some ot =>
      let a := CHAMBER_TAP_OFF * elapsed
      let b := a * e.preburnerCombustion
      let fuelDrained := (ft.drainMass (e.fuelFlowNominal * b)).1
      let ft1 := (ft.drainMass (e.fuelFlowNominal * b)).2
      let oxidizerDrained := (ot.drainMass (e.oxidizerFlowNominal * b)).1
      let ot1 := (ot.drainMass (e.oxidizerFlowNominal * b)).2
      let fuelSupply := fuelDrained / (e.fuelFlowNominal * a)
      let oxidizerSupply := oxidizerDrained / (e.oxidizerFlowNominal * a)
      .ok (min fuelSupply oxidizerSupply, { e with fuelTank := some ft1, oxidizerTank := some ot1 })

/-- Engine.#chamber(mixture): validates 0 ≤ mixture ≤ 1 (RangeError otherwise)
and applies the hysteresis rule to #chamberCombustion. -/
def Engine.chamber (e : Engine) (mixture : ℚ) : Except EngineError Engine :=
  if mixture < 0 ∨ 1 < mixture then .error .mixtureRange
  else
    .ok { e with
      chamberCombustion :=
        if e.chamberIgnition ∨ 0 < e.chamberCombustion then mixture else 0 }

/-- Engine.tick(elapsed): this.#preburner(elapsed) then
this.#chamber(this.#pump(elapsed)). -/
def Engine.tick (e : Engine) (elapsed : ℚ) : Except EngineError Engine := do
  let e1 ← e.preburner elapsed
  let (mixture, e2) ← e1.pump elapsed
  e2.chamber mixture

/-- The value min(fuelSupply, oxidizerSupply) computed inside
Engine.#preburner (app.js lines 1106-1113), factored out so theorems can name
the supply ratio of the pre-burner stage; 0 when a tank port is empty (in
that case #preburner throws instead). -/
def Engine.preburnerSupplyMin (e : Engine) (elapsed : ℚ) : ℚ :=
  match e.fuelTank with
  | none => 0
  | some ft =>
    match e.oxidizerTank with
    | none => 0
    | some ot =>
      let a := PREBURNER_TAP_OFF * elapsed
      let b := a * e.throttle
      min ((ft.drainMass (e.fuelFlowNominal * b)).1 / (e.fuelFlowNominal * a))
        ((ot.drainMass (e.oxidizerFlowNominal * b)).1 / (e.oxidizerFlowNominal * a))

/-- The value min(fuelSupply, oxidizerSupply) computed inside Engine.#pump
(app.js lines 1133-1143), factored out so theorems can name the supply ratio
of the chamber stage. -/
def Engine.pumpSupplyMin (e : Engine) (elapsed : ℚ) : ℚ :=
  match e.fuelTank with
  | none => 0
  | some ft =>
    match e.oxidizerTank with
    | none => 0
    | some ot =>
      let a := CHAMBER_TAP_OFF * elapsed
      let b := a * e.preburnerCombustion
      min ((ft.drainMass (e.fuelFlowNominal * b)).1 / (e.fuelFlowNominal * a))
        ((ot.drainMass (e.oxidizerFlowNominal * b)).1 / (e.oxidizerFlowNominal * a))

/-- Clock errors (IllegalStateError). -/
inductive ClockError where
  | illegalState
deriving DecidableEq

/-- Clock state: rate, the derived #interval and #elapsed fields set by the
constructor, and whether #id currently holds a (truthy) interval id. -/
structure Clock where
  rate : ℚ
  interval : ℚ
  elapsed : ℚ
  running : Bool
deriving DecidableEq

/-- Clock constructor: #interval = 1000/rate, #elapsed = 1/rate, no interval
scheduled. -/
def Clock.new (rate : ℚ) : Clock :=
  ⟨rate, 1000 / rate, 1 / rate, false⟩

/-- Clock.start(): if (this.#id) throw IllegalStateError; else schedule the
interval (modelled as running := true). -/
def Clock.start (c : Clock) : Except ClockError Clock :=
  if c.running then .error .illegalState
  else .ok { c with running := true }

/-- Clock.stop() exactly as written in the source: if (this.#id) throw
IllegalStateError; else clearInterval and null the id. -/
def Clock.stop (c : Clock) : Except ClockError Clock :=
  if c.running then .error .illegalState
  else .ok { c with running := false }

/-- Clock.#tick()'s forEach with try/catch: each temporal is ticked in list
(registration) order against the shared world W; a temporal that throws
leaves the world as it was and its error is appended to the log
(console.error), and the remaining temporals still run. -/
def clockFire {W E : Type} (elapsed : ℚ) (temporals : List (ℚ → W → Except E W))
    (w : W) (log : List E) : W × List E :=
  match temporals with
  | [] => (w, log)
  | t :: ts =>
    match t elapsed w with
    | .ok w1 => clockFire elapsed ts w1 log
    | .error err => clockFire elapsed ts w (log ++ [err])

/-- One firing of a running clock: dispatches tick(#elapsed) to the
registered temporals in registration order. -/
def Clock.fire {W E : Type} (c : Clock) (temporals : List (ℚ → W → Except E W))
    (w : W) : W × List E :=
  clockFire c.elapsed temporals w []

/-- Concrete tank used to witness the amended claim C3. -/
def C3tank : Tank := ⟨⟨2, none, 0⟩, 5, 10, 4⟩

/-- Modelled from the claim's words (claim C1, spec section 4.2 step 1): the
supply ratios with requiredFuel = fuelFlowNominal * PREBURNER_TAP_OFF *
throttle * elapsed as denominator and the convention that a supply ratio is 1
when its denominator is 0.  This is the specification-side definition used
only to compare against the source's Engine.preburner. -/
def Engine.preburnerSupplyMinClaimed (e : Engine) (elapsed : ℚ) : ℚ :=
  match e.fuelTank with
  | none => 0
  | some ft =>
    match e.oxidizerTank with
    | none => 0
    | some ot =>
      let requiredFuel := e.fuelFlowNominal * PREBURNER_TAP_OFF * e.throttle * elapsed
      let requiredOxidizer := e.oxidizerFlowNominal * PREBURNER_TAP_OFF * e.throttle * elapsed
      let fuelSupply :=
        if requiredFuel = 0 then 1 else (ft.drainMass requiredFuel).1 / requiredFuel
      let oxidizerSupply :=
        if requiredOxidizer = 0 then 1 else (ot.drainMass requiredOxidizer).1 / requiredOxidizer
      min fuelSupply oxidizerSupply

/-- The engine state claim C10 predicts after one tick of a cold engine
(ignitions off, combustion levels 0): both tanks have been drained by the
pre-burner's request min(level, flowNominal * PREBURNER_TAP_OFF * throttle *
elapsed) while the combustion levels stay 0. -/
def Engine.coldTickAfter (e : Engine) (ft ot : Tank) (elapsed : ℚ) : Engine :=
  { e with
    fuelTank := some (ft.drainMass (e.fuelFlowNominal * (PREBURNER_TAP_OFF * elapsed * e.throttle))).2
    oxidizerTank := some (ot.drainMass (e.oxidizerFlowNominal * (PREBURNER_TAP_OFF * elapsed * e.throttle))).2
    preburnerCombustion := 0
    chamberCombustion := 0 }

/-- Concrete full tank (density 1, mass capacity 100, level 100) used in the
claim C1 counterexample and witness. -/
def C1tank : Tank := ⟨⟨1, none, 0⟩, 100, 100, 100⟩

/-- Concrete engine at throttle 1/2 with pre-burner ignition on and full
tanks, used in the claim C1 counterexample and witness. -/
def C1e : Engine :=
  { Engine.new 1 1 1 with
    fuelTank := some C1tank
    oxidizerTank := some C1tank
    throttle := 1/2
    preburnerIgnition := true }

/-- The state the source's Engine.preburner produces from C1e after 1 s. -/
def C1e1 : Engine :=
  { C1e with
    fuelTank := some { C1tank with level := 3999/40 }
    oxidizerTank := some { C1tank with level := 3999/40 }
    preburnerCombustion := 1/2 }

/-- The state the source's Engine.pump produces from C1e1 after 1 s. -/
def C1e2 : Engine :=
  { C1e1 with
    fuelTank := some { C1tank with level := 199/2 }
    oxidizerTank := some { C1tank with level := 199/2 } }

/-- Concrete full tank used in the claim C2 witness. -/
def C2tank : Tank := ⟨⟨1, none, 0⟩, 100, 100, 100⟩

/-- Concrete engine with both ignitions on, throttle 1 and full tanks, used
in the claim C2 witness. -/
def C2e : Engine :=
  { Engine.new 2 1 1 with
    fuelTank := some C2tank
    oxidizerTank := some C2tank
    throttle := 1
    preburnerIgnition := true
    chamberIgnition := true }

/-- The state Engine.preburner produces from C2e after 1 s. -/
def C2e1 : Engine :=
  { C2e with
    fuelTank := some { C2tank with level := 1999/20 }
    oxidizerTank := some { C2tank with level := 1999/20 }
    preburnerCombustion := 1 }

/-- The state Engine.pump produces from C2e1 after 1 s. -/
def C2e2 : Engine :=
  { C2e1 with
    fuelTank := some { C2tank with level := 99 }
    oxidizerTank := some { C2tank with level := 99 } }

/-- The state Engine.chamber produces from C2e2 with mixture 1. -/
def C2e3 : Engine :=
  { C2e2 with chamberCombustion := 1 }

/-- Concrete full tank used in the claim C10 witness. -/
def C10tank : Tank := ⟨⟨1, none, 0⟩, 100, 100, 100⟩

/-- Concrete cold engine (ignitions off, combustion 0) at throttle 1/2 with
full tanks, used in the claim C10 witness. -/
def C10e : Engine :=
  { Engine.new 1 1 1 with
    fuelTank := some C10tank
    oxidizerTank := some C10tank
    throttle := 1/2 }

/-- Claim C5: the derived read accessors satisfy thrust = thrustNominal *
thrustLevel, fuelFlow = fuelFlowNominal * thrustLevel, oxidizerFlow =
oxidizerFlowNominal * thrustLevel, propellantFlow = propellantFlowNominal *
thrustLevel and effectiveExhaustVelocity = exhaustVelocityNominal *
thrustLevel, with thrustLevel = 0.05 * preburnerCombustion + 0.95 *
chamberCombustion.  The accessors are modelled as pure functions Engine → ℚ,
mirroring the source getters, which perform no assignment. -/
theorem C5_derived_accessors (e : Engine) :
    e.thrustLevel = 5/100 * e.preburnerCombustion + 95/100 * e.chamberCombustion ∧
    e.thrust = e.thrustNominal * e.thrustLevel ∧
    e.fuelFlow = e.fuelFlowNominal * e.thrustLevel ∧
    e.oxidizerFlow = e.oxidizerFlowNominal * e.thrustLevel ∧
    e.propellantFlow = e.propellantFlowNominal * e.thrustLevel ∧
    e.effectiveExhaustVelocity = e.exhaustVelocityNominal * e.thrustLevel := by
  refine ⟨?_, rfl, ?_, ?_, ?_, ?_⟩ <;>
    simp only [Engine.thrustLevel, Engine.fuelFlow, Engine.oxidizerFlow,
      Engine.propellantFlow, Engine.effectiveExhaustVelocity,
      PREBURNER_TAP_OFF, CHAMBER_TAP_OFF] <;>
    ring

/-- Claim C7 (code bug): the source's Clock.stop() throws IllegalStateError
exactly when the clock IS running and silently succeeds when it is already
stopped, the inverse of the claim (and of the method's own doc comment, which
says it throws if the clock is not running).  Clock.start() does fail if and
only if already running, as the claim says.  This theorem evaluates the code
at both states: stop on a running clock errors, stop on a stopped clock
succeeds, while start behaves as claimed. -/
theorem C7_stop_guard_inverted :
    Clock.stop { Clock.new 24 with running := true } = .error .illegalState ∧
    Clock.stop (Clock.new 24) = .ok (Clock.new 24) ∧
    Clock.start (Clock.new 24) = .ok { Clock.new 24 with running := true } ∧
    Clock.start { Clock.new 24 with running := true } = .error .illegalState :=
  ⟨rfl, rfl, rfl, rfl⟩

/-- Claim C8 counterexample: for Tank(RP-1, 10000/0.820 mL) the mass capacity
is (10000/0.820) * 0.000820 = 10 kg, so fillMass(50000) returns 10, not
50000, and the level after the call is 10, not 50000. -/
theorem C8_rp1_scenario_counterexample :
    (Tank.new Fuels.RP_1 (10000 / (82/100))).massCapacity = 10 ∧
    ((Tank.new Fuels.RP_1 (10000 / (82/100))).fillMass 50000).1 = 10 ∧
    ((Tank.new Fuels.RP_1 (10000 / (82/100))).fillMass 50000).1 ≠ 50000 ∧
    ((Tank.new Fuels.RP_1 (10000 / (82/100))).fillMass 50000).2.level ≠ 50000 := by
  norm_num [Tank.new, Tank.fillMass, Fuels.RP_1, min_def]

/-- Claim C8 (amended): for a Tank constructed as Tank(RP-1, 10000/0.820 mL),
initially empty, massCapacity = 10 kg; fillMass(50000) returns 10 (the
request clamped to massCapacity) and leaves the mass level equal to 10 =
massCapacity; a subsequent fillMass(20000) when the tank is already at
capacity returns 0. -/
theorem C8_rp1_scenario_amended :
    (Tank.new Fuels.RP_1 (10000 / (82/100))).massCapacity = 10 ∧
    ((Tank.new Fuels.RP_1 (10000 / (82/100))).fillMass 50000).1 = 10 ∧
    ((Tank.new Fuels.RP_1 (10000 / (82/100))).fillMass 50000).2.level = 10 ∧
    (((Tank.new Fuels.RP_1 (10000 / (82/100))).fillMass 50000).2.fillMass 20000).1 = 0 := by
  norm_num [Tank.new, Tank.fillMass, Fuels.RP_1, min_def]

/-- Claim C3 counterexample: fillMass with a negative request returns a
negative amount (and drains the tank), so the returned actual amount is not
"never negative" for every requested amount: on a fresh tank of mass
capacity 3, fillMass(-1) returns -1 < 0. -/
theorem C3_fill_drain_counterexample :
    ((Tank.new ⟨1, none, 0⟩ 3).fillMass (-1)).1 = -1 ∧
    ((Tank.new ⟨1, none, 0⟩ 3).fillMass (-1)).1 < 0 := by
  norm_num [Tank.new, Tank.fillMass, min_def]

/-- Claim C3 (amended): fillMass(m) returns min(m, massCapacity - level_before)
and drainMass(m) returns min(m, level_before); the level is mutated by exactly
the returned amount (volume variants converting via the compound's density);
the returned amount never exceeds the request, and it is never negative
PROVIDED the request is non-negative and the level satisfies the tank
invariant (0 ≤ level ≤ massCapacity); a negative request is passed through
the clamp and returned as is. -/
theorem C3_fill_drain_amended (t : Tank) (m v : ℚ) :
    (t.fillMass m).1 = min m (t.massCapacity - t.level) ∧
    (t.drainMass m).1 = min m t.level ∧
    (t.fillMass m).2.level = t.level + (t.fillMass m).1 ∧
    (t.drainMass m).2.level = t.level - (t.drainMass m).1 ∧
    (t.fillMass m).1 ≤ m ∧
    (t.drainMass m).1 ≤ m ∧
    (0 ≤ m → t.level ≤ t.massCapacity → 0 ≤ (t.fillMass m).1) ∧
    (0 ≤ m → 0 ≤ t.level → 0 ≤ (t.drainMass m).1) ∧
    (0 < t.compound.density →
      (t.fillVolume v).1 = min v ((t.massCapacity - t.level) / t.compound.density)) ∧
    (0 < t.compound.density →
      (t.drainVolume v).1 = min v (t.level / t.compound.density)) ∧
    (t.compound.density ≠ 0 →
      (t.fillVolume v).2.level = t.level + (t.fillVolume v).1 * t.compound.density) ∧
    (t.compound.density ≠ 0 →
      (t.drainVolume v).2.level = t.level - (t.drainVolume v).1 * t.compound.density) := by
  refine ⟨min_comm _ _, min_comm _ _, rfl, rfl, min_le_right _ _, min_le_right _ _,
    ?_, ?_, ?_, ?_, ?_, ?_⟩
  · intro hm hcap
    exact le_min (by linarith) hm
  · intro hm hl
    exact le_min hl hm
  · intro hd
    simp only [Tank.fillVolume]
    rw [← min_div_div_right hd.le, mul_div_cancel_right₀ _ hd.ne', min_comm]
  · intro hd
    simp only [Tank.drainVolume]
    rw [← min_div_div_right hd.le, mul_div_cancel_right₀ _ hd.ne', min_comm]
  · intro hd
    simp only [Tank.fillVolume, div_mul_cancel₀ _ hd]
  · intro hd
    simp only [Tank.drainVolume, div_mul_cancel₀ _ hd]

/-- Witness for the amended claim C3 at a concrete tank (density 2, mass
capacity 10, level 4) with request 3 (mass) and 1 (volume): every hypothesis
of the amended theorem is discharged and the conclusions evaluate. -/
theorem C3_fill_drain_amended_witness :
    0 ≤ (C3tank.fillMass 3).1 ∧
    0 ≤ (C3tank.drainMass 3).1 ∧
    (C3tank.fillVolume 1).1 = min 1 ((C3tank.massCapacity - C3tank.level) / C3tank.compound.density) ∧
    (C3tank.drainVolume 1).1 = min 1 (C3tank.level / C3tank.compound.density) ∧
    (C3tank.fillVolume 1).2.level = C3tank.level + (C3tank.fillVolume 1).1 * C3tank.compound.density ∧
    (C3tank.drainVolume 1).2.level = C3tank.level - (C3tank.drainVolume 1).1 * C3tank.compound.density := by
  obtain ⟨h1, h2, h3, h4, h5, h6, h7, h8, h9, h10, h11, h12⟩ :=
    C3_fill_drain_amended C3tank 3 1
  refine ⟨h7 (by norm_num) (by norm_num [C3tank]), h8 (by norm_num) (by norm_num [C3tank]),
    h9 (by norm_num [C3tank]), h10 (by norm_num [C3tank]),
    h11 (by norm_num [C3tank]), h12 (by norm_num [C3tank])⟩

/-- Claim C4 counterexample: the clamps do not guard against negative
requests, so a single drainMass(-5) on a fresh tank of mass capacity 3 pushes
the level to 5 > massCapacity, violating 0 ≤ level ≤ massCapacity. -/
theorem C4_invariant_counterexample :
    ((Tank.new ⟨1, none, 0⟩ 3).applyAll [.drainMass (-5)]).level = 5 ∧
    ((Tank.new ⟨1, none, 0⟩ 3).applyAll [.drainMass (-5)]).massCapacity = 3 ∧
    ¬ ((Tank.new ⟨1, none, 0⟩ 3).applyAll [.drainMass (-5)]).level ≤
        ((Tank.new ⟨1, none, 0⟩ 3).applyAll [.drainMass (-5)]).massCapacity := by
  norm_num [Tank.new, Tank.applyAll, Tank.apply, Tank.drainMass, min_def]

/-- One fill/drain call with a non-negative requested amount preserves the
tank invariant 0 ≤ level ≤ massCapacity and leaves compound and capacities
unchanged (the compound's density is non-negative so volume requests convert
to non-negative mass requests). -/
theorem Tank.apply_inv (t : Tank) (op : TankOp) (hd : 0 ≤ t.compound.density)
    (h0 : 0 ≤ t.level) (h1 : t.level ≤ t.massCapacity) (ha : 0 ≤ op.amount) :
    0 ≤ (t.apply op).level ∧ (t.apply op).level ≤ (t.apply op).massCapacity ∧
    (t.apply op).massCapacity = t.massCapacity ∧
    (t.apply op).compound = t.compound := by
  cases op with
  | fillVolume v =>
    simp only [TankOp.amount] at ha
    have hm : 0 ≤ v * t.compound.density := mul_nonneg ha hd
    refine ⟨?_, ?_, rfl, rfl⟩
    · have := le_min (by linarith : (0:ℚ) ≤ t.massCapacity - t.level) hm
      simp only [Tank.apply, Tank.fillVolume]
      linarith
    · have := min_le_left (t.massCapacity - t.level) (v * t.compound.density)
      simp only [Tank.apply, Tank.fillVolume]
      linarith
  | fillMass m =>
    simp only [TankOp.amount] at ha
    refine ⟨?_, ?_, rfl, rfl⟩
    · have := le_min (by linarith : (0:ℚ) ≤ t.massCapacity - t.level) (ha : 0 ≤ m)
      simp only [Tank.apply, Tank.fillMass]
      linarith
    · have := min_le_left (t.massCapacity - t.level) m
      simp only [Tank.apply, Tank.fillMass]
      linarith
  | drainVolume v =>
    simp only [TankOp.amount] at ha
    have hm : 0 ≤ v * t.compound.density := mul_nonneg ha hd
    refine ⟨?_, ?_, rfl, rfl⟩
    · have := min_le_left t.level (v * t.compound.density)
      simp only [Tank.apply, Tank.drainVolume]
      linarith
    · have := le_min h0 hm
      simp only [Tank.apply, Tank.drainVolume]
      linarith
  | drainMass m =>
    simp only [TankOp.amount] at ha
    refine ⟨?_, ?_, rfl, rfl⟩
    · have := min_le_left t.level m
      simp only [Tank.apply, Tank.drainMass]
      linarith
    · have := le_min h0 (ha : 0 ≤ m)
      simp only [Tank.apply, Tank.drainMass]
      linarith

/-- A sequence of fill/drain calls with non-negative requested amounts
preserves the tank invariant, the compound and the capacities. -/
theorem Tank.applyAll_inv (t : Tank) (ops : List TankOp)
    (hd : 0 ≤ t.compound.density)
    (h0 : 0 ≤ t.level) (h1 : t.level ≤ t.massCapacity)
    (hops : ∀ op ∈ ops, 0 ≤ op.amount) :
    0 ≤ (t.applyAll ops).level ∧
    (t.applyAll ops).level ≤ (t.applyAll ops).massCapacity ∧
    (t.applyAll ops).massCapacity = t.massCapacity ∧
    (t.applyAll ops).compound = t.compound := by
  induction ops generalizing t with
  | nil => exact ⟨h0, h1, rfl, rfl⟩
  | cons op ops ih =>
    simp only [Tank.applyAll]
    obtain ⟨s0, s1, s2, s3⟩ :=
      Tank.apply_inv t op hd h0 h1 (hops op (List.mem_cons_self op ops))
    obtain ⟨r0, r1, r2, r3⟩ :=
      ih (t.apply op) (by rw [s3]; exact hd) s0 s1
        (fun o ho => hops o (List.mem_cons_of_mem op ho))
    exact ⟨r0, r1, by rw [r2, s2], by rw [r3, s3]⟩

/-- Claim C4 (amended): for every sequence of fillVolume/fillMass/drainVolume/
drainMass calls whose requested amounts are all non-negative, starting from a
state satisfying 0 ≤ level ≤ massCapacity (as a freshly constructed tank
does) with non-negative compound density, the invariant 0 ≤ level ≤
massCapacity holds after every call, i.e. after every prefix of the
sequence; the mass capacity is unchanged along the way.  Without the
non-negativity restriction on the requests the claim fails (see the
counterexample): the clamps do not reject a negative request. -/
theorem C4_invariant_amended (t : Tank) (ops pre suf : List TankOp)
    (hd : 0 ≤ t.compound.density)
    (h0 : 0 ≤ t.level) (h1 : t.level ≤ t.massCapacity)
    (hops : ∀ op ∈ ops, 0 ≤ op.amount)
    (hsplit : ops = pre ++ suf) :
    0 ≤ (t.applyAll pre).level ∧
    (t.applyAll pre).level ≤ (t.applyAll pre).massCapacity ∧
    (t.applyAll pre).massCapacity = t.massCapacity := by
  have hpre : ∀ op ∈ pre, 0 ≤ op.amount := by
    intro op ho
    exact hops op (by rw [hsplit]; exact List.mem_append_left suf ho)
  obtain ⟨r0, r1, r2, r3⟩ := Tank.applyAll_inv t pre hd h0 h1 hpre
  exact ⟨r0, r1, r2⟩

/-- Witness for the amended claim C4: a fresh tank of density 1 and capacity
3, a sequence fillMass 2 then drainMass 1 split after the first call; the
invariant holds after the prefix. -/
theorem C4_invariant_amended_witness :
    0 ≤ ((Tank.new ⟨1, none, 0⟩ 3).applyAll [.fillMass 2]).level ∧
    ((Tank.new ⟨1, none, 0⟩ 3).applyAll [.fillMass 2]).level ≤
      ((Tank.new ⟨1, none, 0⟩ 3).applyAll [.fillMass 2]).massCapacity ∧
    ((Tank.new ⟨1, none, 0⟩ 3).applyAll [.fillMass 2]).massCapacity =
      (Tank.new ⟨1, none, 0⟩ 3).massCapacity := by
  refine C4_invariant_amended (Tank.new ⟨1, none, 0⟩ 3)
    [.fillMass 2, .drainMass 1] [.fillMass 2] [.drainMass 1]
    (by norm_num [Tank.new]) (by norm_num [Tank.new]) (by norm_num [Tank.new])
    ?_ rfl
  intro op ho
  rcases List.mem_cons.mp ho with h | h
  · subst h; norm_num [TankOp.amount]
  · rcases List.mem_cons.mp h with h2 | h2
    · subst h2; norm_num [TankOp.amount]
    · exact absurd h2 (List.not_mem_nil op)

/-- Claim C6: when the fuel tank is unset, Engine.tick raises the
NoFuelTankConnectedError fault, and when only the oxidizer tank is unset it
raises the NoOxidizerTankConnectedError fault.  In this state-passing
embedding an error result carries no successor state: the pre-call
preburnerCombustion, chamberCombustion and tank levels are untouched, which
is faithful because Engine.#preburner performs both connectivity checks
before any drainMass call or assignment. -/
theorem C6_no_tank_fault (e : Engine) (elapsed : ℚ) :
    (e.fuelTank = none → e.tick elapsed = .error .noFuelTank) ∧
    (e.fuelTank ≠ none → e.oxidizerTank = none → e.tick elapsed = .error .noOxidizerTank) := by
  constructor
  · intro hf
    simp [Engine.tick, Engine.preburner, hf, bind, Except.bind]
  · intro hf ho
    obtain ⟨ft, hft⟩ := Option.ne_none_iff_exists'.mp hf
    simp [Engine.tick, Engine.preburner, hft, ho, bind, Except.bind]

/-- Witness for claim C6: a freshly constructed engine (no tanks) ticks to
the no-fuel-tank fault, and the same engine with only a fuel tank attached
ticks to the no-oxidizer-tank fault. -/
theorem C6_no_tank_fault_witness :
    (Engine.new 1 1 1).tick 1 = .error .noFuelTank ∧
    ({ Engine.new 1 1 1 with fuelTank := some (Tank.new ⟨1, none, 0⟩ 3) } : Engine).tick 1 =
      .error .noOxidizerTank := by
  constructor
  · exact (C6_no_tank_fault (Engine.new 1 1 1) 1).1 rfl
  · exact (C6_no_tank_fault
      { Engine.new 1 1 1 with fuelTank := some (Tank.new ⟨1, none, 0⟩ 3) } 1).2
      (by simp [Engine.new]) rfl

/-- Claim C2: per tick, each combustion stage obeys the hysteresis rule: the
new pre-burner level is min(fuelSupply, oxidizerSupply) of the pre-burner
stage when preburnerIgnition is set or the pre-tick preburnerCombustion is
positive, and 0 otherwise; the new chamber level is the pump stage's
min(fuelSupply, oxidizerSupply) when chamberIgnition is set or the pre-tick
chamberCombustion is positive, and 0 otherwise. -/
theorem C2_hysteresis (e e1 e2 e3 : Engine) (mixture elapsed : ℚ)
    (h1 : e.preburner elapsed = .ok e1)
    (h2 : e1.pump elapsed = .ok (mixture, e2))
    (h3 : e2.chamber mixture = .ok e3) :
    e.tick elapsed = .ok e3 ∧
    e1.preburnerCombustion =
      (if e.preburnerIgnition ∨ 0 < e.preburnerCombustion then e.preburnerSupplyMin elapsed else 0) ∧
    e3.preburnerCombustion = e1.preburnerCombustion ∧
    mixture = e1.pumpSupplyMin elapsed ∧
    e3.chamberCombustion =
      (if e.chamberIgnition ∨ 0 < e.chamberCombustion then mixture else 0) := by
  have htick : e.tick elapsed = .ok e3 := by
    simp only [Engine.tick, h1, h2, bind, Except.bind]
    exact h3
  refine ⟨htick, ?_⟩
  cases hft : e.fuelTank with
  | none => simp [Engine.preburner, hft] at h1
  | some ft =>
    cases hot : e.oxidizerTank with
    | none => simp [Engine.preburner, hft, hot] at h1
    | some ot =>
      simp only [Engine.preburner, hft, hot, Except.ok.injEq] at h1
      subst h1
      simp only [Engine.pump, Except.ok.injEq, Prod.mk.injEq] at h2
      obtain ⟨hmix, he2⟩ := h2
      subst he2
      simp only [Engine.chamber] at h3
      split at h3
      · exact absurd h3 (by simp)
      · simp only [Except.ok.injEq] at h3
        subst h3
        refine ⟨?_, rfl, ?_, rfl⟩
        · simp only [Engine.preburnerSupplyMin, hft, hot]
        · simp only [Engine.pumpSupplyMin]
          exact hmix.symm

/-- Witness for claim C2: the concrete engine C2e (both ignitions on,
throttle 1, full tanks) ticks through the three stages to C2e3, with both
hysteresis conditionals taking the ignited branch. -/
theorem C2_hysteresis_witness :
    C2e.tick 1 = .ok C2e3 ∧
    C2e1.preburnerCombustion =
      (if C2e.preburnerIgnition ∨ 0 < C2e.preburnerCombustion then C2e.preburnerSupplyMin 1 else 0) ∧
    C2e3.preburnerCombustion = C2e1.preburnerCombustion ∧
    (1 : ℚ) = C2e1.pumpSupplyMin 1 ∧
    C2e3.chamberCombustion =
      (if C2e.chamberIgnition ∨ 0 < C2e.chamberCombustion then (1 : ℚ) else 0) := by
  have hpre : C2e.preburner 1 = .ok C2e1 := by
    norm_num [C2e, C2e1, C2tank, Engine.new, Engine.preburner, Tank.drainMass,
      PREBURNER_TAP_OFF, min_def]
  have hpump : C2e1.pump 1 = .ok (1, C2e2) := by
    norm_num [C2e, C2e1, C2e2, C2tank, Engine.new, Engine.pump, Tank.drainMass,
      PREBURNER_TAP_OFF, CHAMBER_TAP_OFF, min_def]
  have hcham : C2e2.chamber 1 = .ok C2e3 := by
    norm_num [C2e, C2e1, C2e2, C2e3, C2tank, Engine.new, Engine.chamber]
  exact C2_hysteresis C2e C2e1 C2e2 C2e3 1 1 hpre hpump hcham

/-- Claim C1 counterexample: with full tanks, ignition on and throttle 1/2,
the claim's formulas (supply = drained/required, required including the
throttle factor) give pre-burner supply 1, so the claimed new
preburnerCombustion is 1; the source divides the drained mass by
fuelFlowNominal * PREBURNER_TAP_OFF * elapsed — without the throttle factor —
and sets preburnerCombustion to 1/2. -/
theorem C1_supply_counterexample :
    C1e.preburner 1 = .ok C1e1 ∧
    C1e1.preburnerCombustion = 1/2 ∧
    C1e.preburnerSupplyMinClaimed 1 = 1 ∧
    C1e1.preburnerCombustion ≠ C1e.preburnerSupplyMinClaimed 1 := by
  refine ⟨?_, rfl, ?_, ?_⟩
  · norm_num [C1e, C1e1, C1tank, Engine.new, Engine.preburner, Tank.drainMass,
      PREBURNER_TAP_OFF, min_def]
  · norm_num [C1e, C1tank, Engine.new, Engine.preburnerSupplyMinClaimed, Tank.drainMass,
      PREBURNER_TAP_OFF, min_def]
  · norm_num [C1e, C1e1, C1tank, Engine.new, Engine.preburnerSupplyMinClaimed, Tank.drainMass,
      PREBURNER_TAP_OFF, min_def]

/-- Claim C1 (amended): the pre-burner stage requests fuel mass
fuelFlowNominal * PREBURNER_TAP_OFF * elapsed * throttle from the fuel tank
(oxidizer analogous) and computes fuelSupply = drainedFuel /
(fuelFlowNominal * PREBURNER_TAP_OFF * elapsed) — the denominator omits the
throttle factor, so a fully supplied stage reaches throttle, not 1 — and the
chamber/pump stage requests fuelFlowNominal * CHAMBER_TAP_OFF * elapsed *
preburnerCombustion and divides by fuelFlowNominal * CHAMBER_TAP_OFF *
elapsed.  There is no supply = 1 convention for a zero denominator; the
nonzero-flow and nonzero-elapsed hypotheses keep the statement inside the
domain where ℚ division agrees with the JS arithmetic (at a zero denominator
JS produces NaN, not 1). -/
theorem C1_supply_amended (e e1 e2 : Engine) (ft ot ft1 ot1 ft2 ot2 : Tank)
    (mixture elapsed : ℚ)
    (hf : e.fuelTank = some ft) (ho : e.oxidizerTank = some ot)
    (h1 : e.preburner elapsed = .ok e1)
    (hf1 : e1.fuelTank = some ft1) (ho1 : e1.oxidizerTank = some ot1)
    (h2 : e1.pump elapsed = .ok (mixture, e2))
    (hf2 : e2.fuelTank = some ft2) (ho2 : e2.oxidizerTank = some ot2)
    (hffn : e.fuelFlowNominal ≠ 0) (hofn : e.oxidizerFlowNominal ≠ 0) (hel : elapsed ≠ 0) :
    ft1.level = ft.level - min ft.level (e.fuelFlowNominal * (PREBURNER_TAP_OFF * elapsed * e.throttle)) ∧
    ot1.level = ot.level - min ot.level (e.oxidizerFlowNominal * (PREBURNER_TAP_OFF * elapsed * e.throttle)) ∧
    e.preburnerSupplyMin elapsed =
      min (min ft.level (e.fuelFlowNominal * (PREBURNER_TAP_OFF * elapsed * e.throttle)) /
            (e.fuelFlowNominal * (PREBURNER_TAP_OFF * elapsed)))
          (min ot.level (e.oxidizerFlowNominal * (PREBURNER_TAP_OFF * elapsed * e.throttle)) /
            (e.oxidizerFlowNominal * (PREBURNER_TAP_OFF * elapsed))) ∧
    e1.preburnerCombustion =
      (if e.preburnerIgnition ∨ 0 < e.preburnerCombustion then e.preburnerSupplyMin elapsed else 0) ∧
    ft2.level = ft1.level - min ft1.level (e.fuelFlowNominal * (CHAMBER_TAP_OFF * elapsed * e1.preburnerCombustion)) ∧
    ot2.level = ot1.level - min ot1.level (e.oxidizerFlowNominal * (CHAMBER_TAP_OFF * elapsed * e1.preburnerCombustion)) ∧
    mixture =
      min (min ft1.level (e.fuelFlowNominal * (CHAMBER_TAP_OFF * elapsed * e1.preburnerCombustion)) /
            (e.fuelFlowNominal * (CHAMBER_TAP_OFF * elapsed)))
          (min ot1.level (e.oxidizerFlowNominal * (CHAMBER_TAP_OFF * elapsed * e1.preburnerCombustion)) /
            (e.oxidizerFlowNominal * (CHAMBER_TAP_OFF * elapsed))) := by
  simp only [Engine.preburner, hf, ho, Except.ok.injEq] at h1
  subst h1
  simp only [Engine.pump, Except.ok.injEq, Prod.mk.injEq] at h2
  obtain ⟨hmix, he2⟩ := h2
  subst he2
  simp only [Option.some.injEq] at hf1 ho1 hf2 ho2
  subst hf1
  subst ho1
  subst hf2
  subst ho2
  refine ⟨by simp [Tank.drainMass], by simp [Tank.drainMass], ?_, ?_, by simp [Tank.drainMass],
    by simp [Tank.drainMass], ?_⟩
  · simp only [Engine.preburnerSupplyMin, hf, ho, Tank.drainMass]
  · simp only [Engine.preburnerSupplyMin, hf, ho]
  · rw [← hmix]
    simp only [Tank.drainMass]

/-- Witness for the amended claim C1 at the concrete engine C1e (throttle
1/2, full tanks): the pre-burner drains 0.025 leaving level 3999/40, and the
pump stage's mixture is 1/2, matching the amended formulas. -/
theorem C1_supply_amended_witness :
    ({ C1tank with level := 3999/40 } : Tank).level =
      C1tank.level - min C1tank.level (C1e.fuelFlowNominal * (PREBURNER_TAP_OFF * 1 * C1e.throttle)) ∧
    (1/2 : ℚ) =
      min (min ({ C1tank with level := 3999/40 } : Tank).level
            (C1e.fuelFlowNominal * (CHAMBER_TAP_OFF * 1 * C1e1.preburnerCombustion)) /
            (C1e.fuelFlowNominal * (CHAMBER_TAP_OFF * 1)))
          (min ({ C1tank with level := 3999/40 } : Tank).level
            (C1e.oxidizerFlowNominal * (CHAMBER_TAP_OFF * 1 * C1e1.preburnerCombustion)) /
            (C1e.oxidizerFlowNominal * (CHAMBER_TAP_OFF * 1))) := by
  have hpre : C1e.preburner 1 = .ok C1e1 := by
    norm_num [C1e, C1e1, C1tank, Engine.new, Engine.preburner, Tank.drainMass,
      PREBURNER_TAP_OFF, min_def]
  have hpump : C1e1.pump 1 = .ok (1/2, C1e2) := by
    norm_num [C1e, C1e1, C1e2, C1tank, Engine.new, Engine.pump, Tank.drainMass,
      PREBURNER_TAP_OFF, CHAMBER_TAP_OFF, min_def]
  have H := C1_supply_amended C1e C1e1 C1e2 C1tank C1tank
    { C1tank with level := 3999/40 } { C1tank with level := 3999/40 }
    { C1tank with level := 199/2 } { C1tank with level := 199/2 } (1/2) 1
    rfl rfl hpre rfl rfl hpump rfl rfl
    (by norm_num [C1e, Engine.new]) (by norm_num [C1e, Engine.new]) one_ne_zero
  exact ⟨H.1, H.2.2.2.2.2.2⟩

/-- Claim C10: a tick of an engine with both tanks attached, positive
throttle and elapsed time, both ignition flags off and both combustion levels
0 still drains propellant: each tank loses min(level, flowNominal *
PREBURNER_TAP_OFF * elapsed * throttle) to the pre-burner's request (the pump
stage's request is zero because preburnerCombustion is 0), while
preburnerCombustion, chamberCombustion and thrustLevel all remain 0. -/
theorem C10_cold_tick_drain (e : Engine) (ft ot : Tank) (elapsed : ℚ)
    (hf : e.fuelTank = some ft) (ho : e.oxidizerTank = some ot)
    (hthr : 0 < e.throttle) (hel : 0 < elapsed)
    (hpi : e.preburnerIgnition = false) (hci : e.chamberIgnition = false)
    (hpc : e.preburnerCombustion = 0) (hcc : e.chamberCombustion = 0) :
    e.tick elapsed = .ok (e.coldTickAfter ft ot elapsed) ∧
    Option.map Tank.level (e.coldTickAfter ft ot elapsed).fuelTank =
      some (ft.level - min ft.level (e.fuelFlowNominal * (PREBURNER_TAP_OFF * elapsed * e.throttle))) ∧
    Option.map Tank.level (e.coldTickAfter ft ot elapsed).oxidizerTank =
      some (ot.level - min ot.level (e.oxidizerFlowNominal * (PREBURNER_TAP_OFF * elapsed * e.throttle))) ∧
    (e.coldTickAfter ft ot elapsed).preburnerCombustion = 0 ∧
    (e.coldTickAfter ft ot elapsed).chamberCombustion = 0 ∧
    (e.coldTickAfter ft ot elapsed).thrustLevel = 0 := by
  have hmin0 : ∀ x d : ℚ, min (x - min x d) 0 = 0 := by
    intro x d
    have := min_le_left x d
    exact min_eq_right (by linarith)
  refine ⟨?_, ?_, ?_, rfl, rfl, ?_⟩
  · simp only [Engine.tick, Engine.preburner, hf, ho, hpi, hpc, lt_irrefl, Bool.false_eq_true,
      false_or, if_false, bind, Except.bind, Engine.pump, Engine.chamber, Engine.coldTickAfter,
      Tank.drainMass, mul_zero, zero_div, min_self, hmin0, sub_zero, hci, hcc, zero_lt_one]
    norm_num
  · simp [Engine.coldTickAfter, Tank.drainMass]
  · simp [Engine.coldTickAfter, Tank.drainMass]
  · simp [Engine.coldTickAfter, Engine.thrustLevel]

/-- Witness for claim C10: the concrete cold engine C10e (throttle 1/2, full
tanks, no ignition) ticks successfully to its drained state with thrust level
still 0. -/
theorem C10_cold_tick_drain_witness :
    C10e.tick 1 = .ok (C10e.coldTickAfter C10tank C10tank 1) ∧
    (C10e.coldTickAfter C10tank C10tank 1).thrustLevel = 0 := by
  have H := C10_cold_tick_drain C10e C10tank C10tank 1 rfl rfl
    (by norm_num [C10e, Engine.new]) one_pos rfl rfl rfl rfl
  exact ⟨H.1, H.2.2.2.2.2⟩

/-- Firing a clock over a concatenation of temporal lists processes the first
list completely (threading the world and the error log) before the second:
the registration order is respected and no failure stops the firing. -/
theorem clockFire_append {W E : Type} (elapsed : ℚ) (ts1 ts2 : List (ℚ → W → Except E W))
    (w : W) (log : List E) :
    clockFire elapsed (ts1 ++ ts2) w log =
      clockFire elapsed ts2 (clockFire elapsed ts1 w log).1 (clockFire elapsed ts1 w log).2 := by
  induction ts1 generalizing w log with
  | nil => simp [clockFire]
  | cons t ts ih =>
    simp only [List.cons_append, clockFire]
    cases t elapsed w with
    | ok w1 => exact ih w1 log
    | error err => exact ih w (log ++ [err])

/-- Claim C9: a clock constructed with a given rate dispatches
tick(elapsed = 1/rate); one firing processes the registered temporals in
registration order (the append decomposition), a temporal whose tick fails
leaves the world unchanged and has its error caught and logged while the
remaining temporals of the same firing still run, and a temporal whose tick
succeeds passes the updated world to the rest. -/
theorem C9_clock_fire {W E : Type} (rate elapsed : ℚ) (t : ℚ → W → Except E W)
    (ts ts1 ts2 : List (ℚ → W → Except E W)) (w w1 : W) (err : E) (log : List E) :
    (Clock.new rate).elapsed = 1 / rate ∧
    Clock.fire (Clock.new rate) ts w = clockFire (1 / rate) ts w ([] : List E) ∧
    clockFire elapsed (ts1 ++ ts2) w log =
      clockFire elapsed ts2 (clockFire elapsed ts1 w log).1 (clockFire elapsed ts1 w log).2 ∧
    (t elapsed w = .error err →
      clockFire elapsed (t :: ts) w log = clockFire elapsed ts w (log ++ [err])) ∧
    (t elapsed w = .ok w1 →
      clockFire elapsed (t :: ts) w log = clockFire elapsed ts w1 log) := by
  refine ⟨rfl, rfl, clockFire_append elapsed ts1 ts2 w log, ?_, ?_⟩
  · intro h
    simp [clockFire, h]
  · intro h
    simp [clockFire, h]

/-- Witness for claim C9 over the world ℕ: a firing of a failing temporal
followed by a successor temporal logs the error 5 and still advances the
world to 1; a firing of the successor alone also advances the world to 1
with an empty log. -/
theorem C9_clock_fire_witness :
    clockFire (1:ℚ) [fun _ _ => Except.error 5, fun _ n => Except.ok (n+1)] (0:ℕ) ([] : List ℕ) = (1, [5]) ∧
    clockFire (1:ℚ) [fun _ n => Except.ok (n+1)] (0:ℕ) ([] : List ℕ) = (1, ([] : List ℕ)) := by
  have h1 := (C9_clock_fire (24:ℚ) 1 (fun _ _ => Except.error 5)
    [fun _ n => Except.ok (n+1)] [] [] (0:ℕ) 0 (5:ℕ) []).2.2.2.1 rfl
  have h2 := (C9_clock_fire (24:ℚ) 1 (fun _ (n : ℕ) => (Except.ok (n+1) : Except ℕ ℕ))
    [] [] [] (0:ℕ) 1 (5:ℕ) []).2.2.2.2 rfl
  constructor
  · rw [h1]; rfl
  · rw [h2]; rfl
